import Mathlib

/-
Verification of the three Falcor render-graph configuration scripts:
  Source/Mogwai/Data/charvl.BSDFViewer.py
  Source/Mogwai/Data/charvl.wireless.py
  Tests/image_tests/renderpasses/graphs/VBufferRT.py
The scripts call a fixed external engine API (`RenderGraph`, `createPass`,
`addPass`, `addEdge`, `markOutput`, `loadRenderPassLibrary`, `m.addGraph`);
that API is not part of the repository, so its observable behaviour is
modelled from the specification's interface contract.  Each script body is
embedded as the ordered list of API calls it performs, interpreted by an
explicit state-passing semantics.
-/

namespace Falcor

/-- Modelled from the spec: the engine enum `AccumulatePrecision`; only the
value `Double` occurs in the scripts. -/
inductive AccumulatePrecision
  | Double
deriving DecidableEq

/-- The kinds of option values that appear in the scripts' `createPass`
option dictionaries: integers, booleans, and engine enum values. -/
inductive PyValue
  | int (n : Int)
  | bool (b : Bool)
  | precision (p : AccumulatePrecision)
deriving DecidableEq

/-- Modelled from the spec: a pass is a type identifier together with the
configuration options supplied at creation time. -/
structure Pass where
  passType : String
  options : List (String × PyValue)
deriving DecidableEq

/-- Modelled from the spec: a render-graph descriptor has a name, an ordered
collection of named passes, directed edges between pass ports, and marked
output ports. -/
structure RenderGraph where
  name : String
  passes : List (String × Pass)
  edges : List (String × String)
  outputs : List String
deriving DecidableEq

/-- Modelled from the spec: `RenderGraph(name) -> Graph` creates an empty
graph with the given name. -/
def RenderGraph.new (n : String) : RenderGraph :=
  ⟨n, [], [], []⟩

/-- Modelled from the spec: `createPass(typeName, options?) -> Pass`; a call
without an options dictionary is embedded with the empty option list. -/
def createPass (typeName : String) (options : List (String × PyValue)) : Pass :=
  ⟨typeName, options⟩

/-- Modelled from the spec: `Graph.addPass(pass, name)` appends a named pass
to the graph. -/
def RenderGraph.addPass (g : RenderGraph) (p : Pass) (n : String) : RenderGraph :=
  ⟨g.name, g.passes ++ [(n, p)], g.edges, g.outputs⟩

/-- Modelled from the spec: `Graph.addEdge(srcPort, dstPort)` appends a
directed port-to-port edge. -/
def RenderGraph.addEdge (g : RenderGraph) (src dst : String) : RenderGraph :=
  ⟨g.name, g.passes, g.edges ++ [(src, dst)], g.outputs⟩

/-- Modelled from the spec: `Graph.markOutput(port)` appends a marked output
port. -/
def RenderGraph.markOutput (g : RenderGraph) (port : String) : RenderGraph :=
  ⟨g.name, g.passes, g.edges, g.outputs ++ [port]⟩

/-- Modelled from the spec: the only engine state a script touches is the
list of loaded render-pass plugin libraries. -/
structure EngineState where
  loadedLibraries : List String
deriving DecidableEq

/-- Modelled from the spec: `loadRenderPassLibrary(libraryFile)` declares a
native plugin dependency by filename. -/
def loadRenderPassLibrary (st : EngineState) (lib : String) : EngineState :=
  ⟨st.loadedLibraries ++ [lib]⟩

/-- One API call made by a script body, in source order. -/
inductive ScriptOp
  | loadLib (lib : String)
  | newGraph (n : String)
  | addPass (p : Pass) (n : String)
  | addEdge (src dst : String)
  | markOutput (port : String)
deriving DecidableEq

/-- State threaded through a script body: the engine state and the graph
under construction (none before `RenderGraph(...)` is called). -/
structure BuildState where
  engine : EngineState
  graph : Option RenderGraph
deriving DecidableEq

/-- Interpret one API call. -/
def applyOp (s : BuildState) : ScriptOp → BuildState
  | ScriptOp.loadLib lib => ⟨loadRenderPassLibrary s.engine lib, s.graph⟩
  | ScriptOp.newGraph n => ⟨s.engine, some (RenderGraph.new n)⟩
  | ScriptOp.addPass p n => ⟨s.engine, s.graph.map (fun g => g.addPass p n)⟩
  | ScriptOp.addEdge src dst => ⟨s.engine, s.graph.map (fun g => g.addEdge src dst)⟩
  | ScriptOp.markOutput port => ⟨s.engine, s.graph.map (fun g => g.markOutput port)⟩

/-- Run a script body from a given engine state, with no graph yet built. -/
def runOps (ops : List ScriptOp) (st : EngineState) : BuildState :=
  ops.foldl applyOp ⟨st, none⟩

/-- Transcription of `render_graph_DefaultRenderGraph` in
`Source/Mogwai/Data/charvl.BSDFViewer.py`, lines 4-14: the ordered API calls
the builder performs. -/
def BSDFViewerScript.ops : List ScriptOp :=
  [ ScriptOp.newGraph "DefaultRenderGraph",
    ScriptOp.addPass (createPass "BSDFViewer" [("materialID", PyValue.int 0)]) "BSDFViewer",
    ScriptOp.addPass (createPass "AccumulatePass"
      [("enabled", PyValue.bool true),
       ("precisionMode", PyValue.precision AccumulatePrecision.Double)]) "AccumulatePass",
    ScriptOp.addEdge "BSDFViewer.output" "AccumulatePass.input",
    ScriptOp.markOutput "AccumulatePass.output" ]

/-- Transcription of `render_graph_DefaultRenderGraph` in
`Source/Mogwai/Data/charvl.wireless.py`, lines 3-8. -/
def WirelessScript.ops : List ScriptOp :=
  [ ScriptOp.newGraph "DefaultRenderGraph",
    ScriptOp.addPass (createPass "wireframe" []) "wireframe",
    ScriptOp.markOutput "wireframe.output" ]

/-- Transcription of `render_graph_VBufferRT` in
`Tests/image_tests/renderpasses/graphs/VBufferRT.py`, lines 3-14. -/
def VBufferRTScript.ops : List ScriptOp :=
  [ ScriptOp.loadLib "GBuffer.dll",
    ScriptOp.newGraph "VBufferRT",
    ScriptOp.addPass (createPass "VBufferRT" []) "VBufferRT",
    ScriptOp.markOutput "VBufferRT.vbuffer",
    ScriptOp.markOutput "VBufferRT.depth",
    ScriptOp.markOutput "VBufferRT.mvec",
    ScriptOp.markOutput "VBufferRT.viewW" ]

/-- The graph the BSDF-viewer builder returns, bound to the top-level
variable `DefaultRenderGraph` at line 17 of charvl.BSDFViewer.py. -/
def BSDFViewerScript.DefaultRenderGraph : RenderGraph :=
  ⟨"DefaultRenderGraph",
   [("BSDFViewer", ⟨"BSDFViewer", [("materialID", PyValue.int 0)]⟩),
    ("AccumulatePass", ⟨"AccumulatePass",
      [("enabled", PyValue.bool true),
       ("precisionMode", PyValue.precision AccumulatePrecision.Double)]⟩)],
   [("BSDFViewer.output", "AccumulatePass.input")],
   ["AccumulatePass.output"]⟩

/-- The graph the wireframe builder returns, bound to the top-level variable
`DefaultRenderGraph` at line 10 of charvl.wireless.py. -/
def WirelessScript.DefaultRenderGraph : RenderGraph :=
  ⟨"DefaultRenderGraph",
   [("wireframe", ⟨"wireframe", []⟩)],
   [],
   ["wireframe.output"]⟩

/-- The graph the VBufferRT builder returns, bound to the top-level variable
`VBufferRT` at line 16 of VBufferRT.py. -/
def VBufferRTScript.VBufferRT : RenderGraph :=
  ⟨"VBufferRT",
   [("VBufferRT", ⟨"VBufferRT", []⟩)],
   [],
   ["VBufferRT.vbuffer", "VBufferRT.depth", "VBufferRT.mvec", "VBufferRT.viewW"]⟩

/-- A Python exception as far as the scripts distinguish them: a `NameError`
(the only kind their guards catch) or anything else. -/
inductive PyError
  | nameError
  | other (msg : String)
deriving DecidableEq

/-- Modelled from the spec: the ambient host session object `m`, which
collects registered graphs. -/
structure Session where
  graphs : List RenderGraph
deriving DecidableEq

/-- Modelled from the spec: the default success behaviour of `m.addGraph`,
registering the graph with the session. -/
def Session.addGraph (s : Session) (g : RenderGraph) : Except PyError Session :=
  Except.ok ⟨s.graphs ++ [g]⟩

/-- The `try: m.addGraph(g)` / `except NameError: None` guard shared by the
three scripts.  When `m` is absent, evaluating the name `m` raises a
`NameError` before `addGraph` runs; the handler performs no action, leaving
the session reference as it was.  The behaviour of `addGraph` itself is kept
abstract so that any exception it raises can be followed through the guard. -/
def tryAddGraph (addGraphImpl : Session → RenderGraph → Except PyError Session)
    (m : Option Session) (g : RenderGraph) : Except PyError (Option Session) :=
  let attempt : Except PyError (Option Session) :=
    match m with
    | none => Except.error PyError.nameError
    | some s => (addGraphImpl s g).map some
  match attempt with
  | Except.error PyError.nameError => Except.ok m
  | r => r

/-- The observable result of evaluating a whole script: the graph held by
the top-level variable, the final engine state, and the final session. -/
structure ScriptResult where
  boundGraph : Option RenderGraph
  engine : EngineState
  session : Option Session
deriving DecidableEq

/-- Evaluate a whole script: run the builder once, bind its graph to the
top-level variable, then attempt registration under the `NameError` guard.
Nothing happens after the guard. -/
def evalScript (ops : List ScriptOp)
    (addGraphImpl : Session → RenderGraph → Except PyError Session)
    (st : EngineState) (m : Option Session) : Except PyError ScriptResult :=
  let b := runOps ops st
  match b.graph with
  | none => Except.error (PyError.other "builder constructed no graph")
  | some g =>
    match tryAddGraph addGraphImpl m g with
    | Except.ok m2 => Except.ok ⟨some g, b.engine, m2⟩
    | Except.error e => Except.error e

/-- Graph-construction calls are every API call except a library load. -/
def isGraphConstructionCall : ScriptOp → Bool
  | ScriptOp.loadLib _ => false
  | _ => true

/-- The library `lib` is loaded before any graph-construction call: the
load appears among the calls preceding the first graph-construction call. -/
def libLoadedBeforeGraphCalls (ops : List ScriptOp) (lib : String) : Prop :=
  ScriptOp.loadLib lib ∈ ops.takeWhile (fun op => !isGraphConstructionCall op)

/-- Recognize the `RenderGraph(...)` construction call. -/
def isNewGraphCall : ScriptOp → Bool
  | ScriptOp.newGraph _ => true
  | _ => false

/-- The pass a port reference `<passName>.<portName>` belongs to: the text
before the first dot. -/
def portPass (port : String) : String :=
  String.mk (port.toList.takeWhile (fun c => c != '.'))

/-- Check, stepping through the calls in order with the accumulated list of
pass names added so far, that every port referenced by an `addEdge` or
`markOutput` call belongs to a pass added by an earlier `addPass` call. -/
def opsRespectPassOrder : List ScriptOp → List String → Bool
  | [], _ => true
  | ScriptOp.addPass _ n :: rest, acc => opsRespectPassOrder rest (acc ++ [n])
  | ScriptOp.addEdge src dst :: rest, acc =>
      acc.contains (portPass src) && acc.contains (portPass dst)
        && opsRespectPassOrder rest acc
  | ScriptOp.markOutput port :: rest, acc =>
      acc.contains (portPass port) && opsRespectPassOrder rest acc
  | _ :: rest, acc => opsRespectPassOrder rest acc

/-- An `addGraph` implementation that fails with a non-`NameError`
exception, used to witness that such exceptions pass through the guard. -/
def failingAddGraph : Session → RenderGraph → Except PyError Session :=
  fun _ _ => Except.error (PyError.other "engine rejected graph")

/-- C1: the BSDF-viewer builder yields a graph with exactly two passes —
"BSDFViewer" of type "BSDFViewer" with option materialID=0, and
"AccumulatePass" of type "AccumulatePass" with options enabled=true and
precisionMode=Double — exactly one edge from BSDFViewer.output to
AccumulatePass.input, and exactly one marked output, AccumulatePass.output,
whatever engine state the script starts from. -/
theorem c1_bsdf_viewer_graph_shape (st : EngineState) :
    (runOps BSDFViewerScript.ops st).graph =
      some ⟨"DefaultRenderGraph",
        [("BSDFViewer", ⟨"BSDFViewer", [("materialID", PyValue.int 0)]⟩),
         ("AccumulatePass", ⟨"AccumulatePass",
           [("enabled", PyValue.bool true),
            ("precisionMode", PyValue.precision AccumulatePrecision.Double)]⟩)],
        [("BSDFViewer.output", "AccumulatePass.input")],
        ["AccumulatePass.output"]⟩ :=
  rfl

/-- C2: the VBufferRT builder yields a graph with exactly one pass
"VBufferRT" of type "VBufferRT", zero edges, and exactly the four marked
outputs VBufferRT.vbuffer, VBufferRT.depth, VBufferRT.mvec, VBufferRT.viewW
in that order; and "GBuffer.dll" is loaded via loadRenderPassLibrary before
any graph-construction call is made. -/
theorem c2_vbufferrt_graph_shape (st : EngineState) :
    (runOps VBufferRTScript.ops st).graph =
      some ⟨"VBufferRT",
        [("VBufferRT", ⟨"VBufferRT", []⟩)],
        [],
        ["VBufferRT.vbuffer", "VBufferRT.depth", "VBufferRT.mvec", "VBufferRT.viewW"]⟩
  ∧ libLoadedBeforeGraphCalls VBufferRTScript.ops "GBuffer.dll"
  ∧ (runOps VBufferRTScript.ops st).engine = loadRenderPassLibrary st "GBuffer.dll" := by
  refine ⟨rfl, ?_, rfl⟩
  unfold libLoadedBeforeGraphCalls
  decide

/-- C3: the wireframe builder yields a graph with exactly one pass, named
"wireframe", created with type "wireframe" and no options, zero edges, and
exactly one marked output, wireframe.output. -/
theorem c3_wireframe_graph_shape (st : EngineState) :
    (runOps WirelessScript.ops st).graph =
      some ⟨"DefaultRenderGraph",
        [("wireframe", ⟨"wireframe", []⟩)],
        [],
        ["wireframe.output"]⟩ :=
  rfl

/-- C4: the registration guard swallows exactly the NameError raised when
the ambient session `m` is absent, its handler performs no action (the
session reference is unchanged), and any other exception raised by
`m.addGraph` propagates out of the guard, as does a successful result. -/
theorem c4_guard_catches_only_absent_session
    (f : Session → RenderGraph → Except PyError Session) (s : Session) (g : RenderGraph) :
    tryAddGraph f none g = Except.ok none
  ∧ (∀ msg, f s g = Except.error (PyError.other msg) →
      tryAddGraph f (some s) g = Except.error (PyError.other msg))
  ∧ (∀ s2, f s g = Except.ok s2 →
      tryAddGraph f (some s) g = Except.ok (some s2)) := by
  refine ⟨rfl, ?_, ?_⟩
  · intro msg h
    simp [tryAddGraph, h, Except.map]
  · intro s2 h
    simp [tryAddGraph, h, Except.map]

/-- Witness for C4: with a session present and an `addGraph` that raises a
non-NameError exception, the guard lets the exception through; with the
session absent, the guard swallows the NameError. -/
theorem c4_guard_witness :
    tryAddGraph failingAddGraph none WirelessScript.DefaultRenderGraph = Except.ok none
  ∧ tryAddGraph failingAddGraph (some ⟨[]⟩) WirelessScript.DefaultRenderGraph
      = Except.error (PyError.other "engine rejected graph") :=
  ⟨(c4_guard_catches_only_absent_session failingAddGraph ⟨[]⟩
      WirelessScript.DefaultRenderGraph).1,
   (c4_guard_catches_only_absent_session failingAddGraph ⟨[]⟩
      WirelessScript.DefaultRenderGraph).2.1 "engine rejected graph" rfl⟩

/-- C5: for each of the three scripts, when the ambient session `m` is
undefined, evaluating the whole script completes without raising any error,
whatever `addGraph` would have done and whatever the engine state. -/
theorem c5_scripts_succeed_without_session
    (f : Session → RenderGraph → Except PyError Session) (st : EngineState) :
    (∃ r, evalScript BSDFViewerScript.ops f st none = Except.ok r)
  ∧ (∃ r, evalScript WirelessScript.ops f st none = Except.ok r)
  ∧ (∃ r, evalScript VBufferRTScript.ops f st none = Except.ok r) :=
  ⟨⟨_, rfl⟩, ⟨_, rfl⟩, ⟨_, rfl⟩⟩

/-- C6: in each of the three scripts, stepping through the construction
calls in source order, every port referenced by an `addEdge` or
`markOutput` call belongs to a pass added by an earlier `addPass` call. -/
theorem c6_ports_reference_added_passes :
    opsRespectPassOrder BSDFViewerScript.ops [] = true
  ∧ opsRespectPassOrder WirelessScript.ops [] = true
  ∧ opsRespectPassOrder VBufferRTScript.ops [] = true := by
  refine ⟨?_, ?_, ?_⟩ <;> decide

/-- C7: each builder is deterministic — the graph it produces does not
depend on the engine state it starts from, so two invocations, including a
re-run from the engine state the first run left behind, yield equal
graphs. -/
theorem c7_builders_deterministic (st st' : EngineState) :
    (runOps BSDFViewerScript.ops st).graph = (runOps BSDFViewerScript.ops st').graph
  ∧ (runOps WirelessScript.ops st).graph = (runOps WirelessScript.ops st').graph
  ∧ (runOps VBufferRTScript.ops st).graph = (runOps VBufferRTScript.ops st').graph
  ∧ (runOps BSDFViewerScript.ops (runOps BSDFViewerScript.ops st).engine).graph
      = (runOps BSDFViewerScript.ops st).graph
  ∧ (runOps WirelessScript.ops (runOps WirelessScript.ops st).engine).graph
      = (runOps WirelessScript.ops st).graph
  ∧ (runOps VBufferRTScript.ops (runOps VBufferRTScript.ops st).engine).graph
      = (runOps VBufferRTScript.ops st).graph :=
  ⟨rfl, rfl, rfl, rfl, rfl, rfl⟩

/-- C8: each script constructs its graph exactly once (its call sequence
contains exactly one `RenderGraph(...)` call) and, when the session `m` is
present, registers exactly the builder's graph exactly once: the session
gains that one graph, and the bound graph is still the builder's graph
afterwards, with nothing further happening. -/
theorem c8_register_exactly_once (st : EngineState) (s : Session) :
    evalScript BSDFViewerScript.ops Session.addGraph st (some s) =
      Except.ok ⟨some BSDFViewerScript.DefaultRenderGraph, st,
                 some ⟨s.graphs ++ [BSDFViewerScript.DefaultRenderGraph]⟩⟩
  ∧ evalScript WirelessScript.ops Session.addGraph st (some s) =
      Except.ok ⟨some WirelessScript.DefaultRenderGraph, st,
                 some ⟨s.graphs ++ [WirelessScript.DefaultRenderGraph]⟩⟩
  ∧ evalScript VBufferRTScript.ops Session.addGraph st (some s) =
      Except.ok ⟨some VBufferRTScript.VBufferRT, loadRenderPassLibrary st "GBuffer.dll",
                 some ⟨s.graphs ++ [VBufferRTScript.VBufferRT]⟩⟩
  ∧ BSDFViewerScript.ops.countP isNewGraphCall = 1
  ∧ WirelessScript.ops.countP isNewGraphCall = 1
  ∧ VBufferRTScript.ops.countP isNewGraphCall = 1 :=
  ⟨rfl, rfl, rfl, by decide, by decide, by decide⟩

/-- C9: both Mogwai scripts build a graph named "DefaultRenderGraph" — in
particular the wireframe script's graph is not named "wireframe" — while
the VBufferRT script's graph is named "VBufferRT". -/
theorem c9_graph_names (st : EngineState) :
    (runOps BSDFViewerScript.ops st).graph.map RenderGraph.name = some "DefaultRenderGraph"
  ∧ (runOps WirelessScript.ops st).graph.map RenderGraph.name = some "DefaultRenderGraph"
  ∧ (runOps WirelessScript.ops st).graph.map RenderGraph.name ≠ some "wireframe"
  ∧ (runOps VBufferRTScript.ops st).graph.map RenderGraph.name = some "VBufferRT" :=
  ⟨rfl, rfl,
   (by decide : (some "DefaultRenderGraph" : Option String) ≠ some "wireframe"),
   rfl⟩

/-- C10: for each script, when registration fails because `m` is absent,
the script still succeeds and the top-level variable holds exactly the
graph the builder produced — which is the fully built descriptor with all
its passes, edges, and marked outputs. -/
theorem c10_failed_registration_leaves_graph
    (f : Session → RenderGraph → Except PyError Session) (st : EngineState) :
    (evalScript BSDFViewerScript.ops f st none =
        Except.ok ⟨(runOps BSDFViewerScript.ops st).graph, (runOps BSDFViewerScript.ops st).engine, none⟩
      ∧ (runOps BSDFViewerScript.ops st).graph = some BSDFViewerScript.DefaultRenderGraph)
  ∧ (evalScript WirelessScript.ops f st none =
        Except.ok ⟨(runOps WirelessScript.ops st).graph, (runOps WirelessScript.ops st).engine, none⟩
      ∧ (runOps WirelessScript.ops st).graph = some WirelessScript.DefaultRenderGraph)
  ∧ (evalScript VBufferRTScript.ops f st none =
        Except.ok ⟨(runOps VBufferRTScript.ops st).graph, (runOps VBufferRTScript.ops st).engine, none⟩
      ∧ (runOps VBufferRTScript.ops st).graph = some VBufferRTScript.VBufferRT) :=
  ⟨⟨rfl, rfl⟩, ⟨rfl, rfl⟩, ⟨rfl, rfl⟩⟩

end Falcor
